import Mathlib

/-!
Verification of the goscant concurrent port scanner core against its
natural-language specification.

The Go sources are shallowly embedded: pure computations become Lean
functions, the worker loop becomes an explicit small-step relation on a
worker state, channel/file effects become explicit state values.  External
library effects (the TCP dial, time formatting) are passed in as abstract
inputs so that the classification and bookkeeping logic — which is what the
repository owns — is modelled exactly as written.
-/

namespace Goscant

/-! ## Data model (internal/models/models.go) -/

/-- ScanTarget represents a single IP:Port combination to be scanned
(models.ScanTarget). -/
structure ScanTarget where
  ip : String
  port : Nat
deriving DecidableEq, Repr

/-- ScanStatus is a string in the Go source (`type ScanStatus string`). -/
abbrev ScanStatus := String

/-- StatusOpen mirrors models.StatusOpen. -/
def StatusOpen : ScanStatus := "OPEN"

/-- StatusClosed mirrors models.StatusClosed. -/
def StatusClosed : ScanStatus := "CLOSED"

/-- StatusFiltered mirrors models.StatusFiltered. -/
def StatusFiltered : ScanStatus := "FILTERED"

/-- StatusError mirrors models.StatusError. -/
def StatusError : ScanStatus := "ERROR"

/-- StatusDryRun mirrors models.StatusDryRun (the string is "DRYRUN"). -/
def StatusDryRun : ScanStatus := "DRYRUN"

/-- ScanResult holds the outcome of a single port scan attempt
(models.ScanResult).  Time is abstracted to a natural-number tick, a Go
`time.Duration` to an integer number of nanoseconds, and the `error`
interface value to an optional message string.  Go zero values are the
defaults: empty status, zero latency, nil error. -/
structure ScanResult where
  timestamp : Nat
  target : ScanTarget
  status : ScanStatus := ""
  latency : Int := 0
  error : Option String := none
deriving DecidableEq, Repr

/-- ToCSVRow (models.ScanResult.ToCSVRow): the time and latency renderings
call into Go's standard library (`time.Format`, `fmt.Sprintf "%.2f"`), so
they are taken as abstract formatter arguments; the row shape and the
status-field logic are the source's own. -/
def ScanResult.toCSVRow (r : ScanResult)
    (fmtTime : Nat → String) (fmtLatencyMs : Int → String) : List String :=
  let status :=
    if r.status = StatusError ∧ r.error ≠ none then
      "ERROR: " ++ (r.error.getD "")
    else
      (r.status : String)
  [fmtTime r.timestamp, r.target.ip, toString r.target.port, status,
    fmtLatencyMs r.latency]

/-- CSVHeader (models.CSVHeader): the header row for the results CSV file. -/
def CSVHeader : List String :=
  ["timestamp", "dst_ip", "dst_port", "status", "latency_ms"]

/-- The five status values enumerated by the spec's output-record schema
(spec §6: `status ∈ \x7bOPEN,CLOSED,FILTERED,ERROR,DRYRUN\x7d`). -/
def allowedStatuses : List String :=
  ["OPEN", "CLOSED", "FILTERED", "ERROR", "DRYRUN"]

/-- The field names of the output-record schema as the spec declares them
(spec §6: `timestamp (RFC3339), address, port, status, latency_ms`).  This
definition follows the spec's words, to be compared with `CSVHeader` from
the source. -/
def specSchemaFieldNames : List String :=
  ["timestamp", "address", "port", "status", "latency_ms"]

/-! ## Connect strategy (internal/scanner/scanner.go, ConnectScanner.Scan) -/

/-- Outcome of the `dialer.DialContext` call, the single external effect of
ConnectScanner.Scan.  A failure records whether the error is timeout-class
(`err.(net.Error)` succeeds and `netErr.Timeout()` is true) together with
the error message. -/
inductive DialOutcome
  | success
  | failure (isTimeout : Bool) (msg : String)
deriving DecidableEq, Repr

/-- ConnectScanner carries the per-probe dial timeout
(scanner.ConnectScanner; the logger field is ignored). -/
structure ConnectScanner where
  timeout : Int
deriving DecidableEq, Repr

/-- ConnectScanner.Scan: builds the result from the dial outcome exactly as
the source does.  `startTime` is the tick at dial start and `dialDuration`
the wall-clock span of the dial (`time.Since(startTime)` taken immediately
after the dial returns, before any branching).  The returned Bool records
whether an established connection was torn down (`conn.Close()`), which in
the source happens exactly on the success path. -/
def ConnectScanner.Scan (_s : ConnectScanner) (target : ScanTarget)
    (startTime : Nat) (dial : DialOutcome) (dialDuration : Int) :
    ScanResult × Bool :=
  let result : ScanResult :=
    { timestamp := startTime, target := target, latency := dialDuration }
  match dial with
  | .failure isTimeout msg =>
      if isTimeout then
        ({ result with error := some msg, status := StatusFiltered }, false)
      else
        ({ result with error := some msg, status := StatusClosed }, false)
  | .success =>
      ({ result with status := StatusOpen }, true)

/-! ## Worker body (internal/scanner/scanner.go, Worker) -/

/-- One iteration of the worker body on a dequeued target: the dry-run
branch fabricates a result locally (status DRYRUN, zero-value latency and
error) with no network I/O; otherwise it invokes the strategy's Scan.  The
Bool records whether the network-touching Scan was invoked. -/
def workerProcess (dryRun : Bool) (scan : ScanTarget → ScanResult)
    (now : Nat) (target : ScanTarget) : ScanResult × Bool :=
  if dryRun then
    ({ timestamp := now, target := target, status := StatusDryRun }, false)
  else
    (scan target, true)

/-- The dry-run strategy repeated: the sequence of results of `n`
invocations of the worker body in dry-run mode on the same target. -/
def dryRunInvocations (scan : ScanTarget → ScanResult) (now : Nat)
    (target : ScanTarget) (n : Nat) : List (ScanResult × Bool) :=
  (List.range n).map (fun _ => workerProcess true scan now target)

/-! ## Worker loop as a small-step system (internal/scanner/scanner.go)

The worker's `for \x7b select ... \x7d` loop has two suspension points: the
outer select (receive a task / observe ctx.Done) and the inner select
(send the result / observe ctx.Done).  Go's `select` picks an arbitrary
ready branch, so the loop is modelled as a nondeterministic step relation.
The probe itself (`s.Scan` or the dry-run fabrication) is straight-line
code with no suspension point, so it is performed atomically inside the
dequeue step. -/

/-- Control point of one worker: blocked at the outer select, holding a
finished result at the inner (publish) select, or returned. -/
inductive WorkerPhase
  | waiting
  | publishing (r : ScanResult)
  | exited
deriving DecidableEq, Repr

/-- State of one worker together with the queues it observes: the buffered
content of the task channel, whether that channel has been closed, whether
the shared context has been cancelled, and the results published so far. -/
structure WorkerState where
  phase : WorkerPhase
  tasks : List ScanTarget
  tasksClosed : Bool
  canceled : Bool
  published : List ScanResult
deriving DecidableEq, Repr

/-- One step of the worker loop (scanner.Worker), plus the external arrival
of cancellation.  `process` is the worker body applied to a dequeued target
(dry-run fabrication or `s.Scan`).

* `recvTask`: the outer select receives a target; the probe runs to
  completion and the worker arrives at the publish select.
* `recvClosed`: the task channel is closed and drained, receive yields
  `!ok`, the worker returns.
* `ctxDoneWaiting`: the outer select observes `ctx.Done()`, the worker
  returns without a further probe.
* `publish`: the inner select sends the result and the loop continues
  (the `time.Sleep(delay)` that follows has no observable effect here).
* `ctxDonePublishing`: the inner select observes `ctx.Done()`; the result
  is dropped and the worker returns.
* `cancelArrives`: the environment cancels the shared context
  (monotonic: it is never un-set). -/
inductive WStep (process : ScanTarget → ScanResult) :
    WorkerState → WorkerState → Prop
  | recvTask (s : WorkerState) (t : ScanTarget) (rest : List ScanTarget) :
      s.phase = .waiting → s.tasks = t :: rest →
      WStep process s { s with phase := .publishing (process t), tasks := rest }
  | recvClosed (s : WorkerState) :
      s.phase = .waiting → s.tasks = [] → s.tasksClosed = true →
      WStep process s { s with phase := .exited }
  | ctxDoneWaiting (s : WorkerState) :
      s.phase = .waiting → s.canceled = true →
      WStep process s { s with phase := .exited }
  | publish (s : WorkerState) (r : ScanResult) :
      s.phase = .publishing r →
      WStep process s
        { s with phase := .waiting, published := s.published ++ [r] }
  | ctxDonePublishing (s : WorkerState) (r : ScanResult) :
      s.phase = .publishing r → s.canceled = true →
      WStep process s { s with phase := .exited }
  | cancelArrives (s : WorkerState) :
      s.canceled = false →
      WStep process s { s with canceled := true }

/-! ## Configuration and strategy selection (config/config.go, main.go) -/

/-- Config holds all configuration settings (config.Config).  Durations are
integers (nanoseconds). -/
structure Config where
  ipInput : String
  portInput : String
  workers : Nat
  timeout : Int
  delay : Int
  queueSize : Nat
  dryRun : Bool
  resumeFile : String
  outputFile : String
  logFile : String
  scanType : String
  ping : Bool
  minSourcePort : Nat
  logLevel : String
deriving DecidableEq, Repr

/-- The probe engine a worker can be bound to.  The repository declares a
ConnectScanner and a SynScanner (internal/scanner). -/
inductive ScanEngine
  | connectScanner (timeout : Int)
  | synScanner (timeout : Int) (srcPort : Nat)
deriving DecidableEq, Repr

/-- Whether an engine is the raw SYN strategy. -/
def ScanEngine.isSyn : ScanEngine → Bool
  | .synScanner _ _ => true
  | _ => false

/-- The scanner factory of main.go (the switch inside the worker-spawn
loop): every case — "syn" included, via fallthrough — reaches the default
arm and constructs a ConnectScanner. -/
def selectEngine (cfg : Config) : ScanEngine :=
  match cfg.scanType with
  | "syn" => ScanEngine.connectScanner cfg.timeout
  | "connect" => ScanEngine.connectScanner cfg.timeout
  | _ => ScanEngine.connectScanner cfg.timeout

/-- CheckPrivileges (pkg/utils/utils.go): returns true when the process
exits — on a non-Windows OS with a non-zero effective uid the function
logs an error and calls `os.Exit(1)`. -/
def CheckPrivileges (goos : String) (euid : Nat) : Bool :=
  goos ≠ "windows" && euid ≠ 0

/-- The startup privilege gate of main.go: CheckPrivileges runs exactly
when the configured scan type is "syn"; true means the process exits at
startup, before any worker is spawned. -/
def startupPrivilegeExit (cfg : Config) (goos : String) (euid : Nat) : Bool :=
  cfg.scanType = "syn" && CheckPrivileges goos euid

/-! ## Target preparation and the resume path (main.go, internal/parser) -/

/-- CreateTargets (internal/parser/parser.go): the cross product of the
parsed IPs and ports, IPs outermost. -/
def CreateTargets (ips : List String) (ports : List Nat) : List ScanTarget :=
  ips.flatMap (fun ip => ports.map (fun port => { ip := ip, port := port }))

/-- Result of checkpoint.LoadState as observed by main.go: either a target
list or an error value. -/
inductive LoadResult
  | ok (targets : List ScanTarget)
  | err (msg : String)
deriving DecidableEq, Repr

/-- The fresh-scan target pipeline of main.go (the `else` branch of the
resume conditional): parse IPs and ports, optionally narrow the IPs by the
reachability prefilter — invoked only when `cfg.Ping && !cfg.DryRun` —
then build the cross product.  `filter` abstracts
pinger.FilterReachableHosts; the Bool records whether it was invoked. -/
def freshScanTargets (cfg : Config) (filter : List String → List String)
    (parsedIPs : List String) (parsedPorts : List Nat) :
    List ScanTarget × Bool :=
  if cfg.ping ∧ ¬cfg.dryRun then
    (CreateTargets (filter parsedIPs) parsedPorts, true)
  else
    (CreateTargets parsedIPs parsedPorts, false)

/-- The target-acquisition phase of main.go: when a resume file is
configured, main only consults LoadState — on failure it logs a warning
and leaves `targets` empty, never touching the IP/port inputs; when no
resume file is configured it runs the fresh-scan pipeline.  Afterwards,
`len(targets) == 0` exits the process with code 1.  `Except.error 1`
models that exit. -/
def resolveTargets (cfg : Config) (load : LoadResult)
    (filter : List String → List String)
    (parsedIPs : List String) (parsedPorts : List Nat) :
    Except Nat (List ScanTarget) :=
  let targets : List ScanTarget :=
    if cfg.resumeFile ≠ "" then
      match load with
      | .err _ => []
      | .ok ts => ts
    else
      (freshScanTargets cfg filter parsedIPs parsedPorts).1
  if targets = [] then .error 1 else .ok targets

/-! ## Checkpoint manager

The authoritative main.go calls `checkpoint.SaveState` / `checkpoint.LoadState`
from `pkg/checkpoint`, a package whose source is not in the repository
snapshot; those two functions are modelled from the spec (§4.5 and the §6
checkpoint file schema).  The surrounding decision logic — when main.go
saves, and what it does after a successful load — is embedded from
main.go itself, which is in the snapshot. -/

/-- CheckpointSnapshot per the §6 schema: remaining targets, a version
string, a timestamp. -/
structure CheckpointSnapshot where
  remaining : List ScanTarget
  version : String
  time : Nat
deriving DecidableEq, Repr

/-- A file system mapping path names to fully written checkpoint
snapshots.  A path that is absent models both a missing file and a file
whose content does not parse. -/
abbrev FS := List (String × CheckpointSnapshot)

/-- Look a path up in the file system. -/
def fsLookup (fs : FS) (path : String) : Option CheckpointSnapshot :=
  (fs.find? (fun p => p.1 == path)).map (fun p => p.2)

/-- Write (create or overwrite) a whole file in one step. -/
def fsWrite (fs : FS) (path : String) (content : CheckpointSnapshot) : FS :=
  (path, content) :: fs.filter (fun p => p.1 != path)

/-- Remove a path. -/
def fsRemove (fs : FS) (path : String) : FS :=
  fs.filter (fun p => p.1 != path)

/-- Atomically rename a path onto another. -/
def fsRename (fs : FS) (src dst : String) : FS :=
  match fsLookup fs src with
  | none => fs
  | some content => fsWrite (fsRemove fs src) dst content

/-- Modelled from the spec: `pkg/checkpoint.SaveState` is absent from the
repository snapshot (only its caller main.go is present).  Per §4.5 it
serializes the snapshot to a temporary path and atomically renames it into
place.  The intermediate file system — after the temporary write, before
the rename — is returned alongside the final one so that atomicity is
statable. -/
def SaveState (fs : FS) (targets : List ScanTarget) (now : Nat)
    (finalPath : String) : FS × FS :=
  (fsWrite fs (finalPath ++ ".tmp")
      { remaining := targets, version := "1", time := now },
    fsRename
      (fsWrite fs (finalPath ++ ".tmp")
        { remaining := targets, version := "1", time := now })
      (finalPath ++ ".tmp") finalPath)

/-- Modelled from the spec: `pkg/checkpoint.LoadState` is absent from the
repository snapshot.  Per §4.5 it reads and parses the snapshot at the
resume path, yielding its target list; a missing or unparsable file is an
error. -/
def LoadState (fs : FS) (path : String) : LoadResult :=
  match fsLookup fs path with
  | some snap => .ok snap.remaining
  | none => .err "open checkpoint: no such file or directory"

/-- The resume branch of main.go (the body of `if cfg.ResumeFile != ""`):
on a successful load, `targets` becomes the loaded list and — in this
main.go — no `os.Remove` is issued, so the file system is returned
unchanged; on a failed load a warning is logged and `targets` stays
empty. -/
def mainHandleResume (fs : FS) (resumeFile : String) :
    List ScanTarget × FS :=
  match LoadState fs resumeFile with
  | .ok ts => (ts, fs)
  | .err _ => ([], fs)

/-- The producer goroutine of main.go: feeds targets into the task queue
until the context is cancelled, then returns; its deferred `close` always
closes the queue.  `cancelIdx` is the number of sends that win the select
before `ctx.Done()` does; the result is the queue content handed over and
whether the queue ends up closed. -/
def feedTargets (targets : List ScanTarget) (cancelIdx : Nat) :
    List ScanTarget × Bool :=
  (targets.take cancelIdx, true)

/-- Outcome of the interrupt-handler goroutine of main.go. -/
structure InterruptOutcome where
  canceled : Bool
  drained : List ScanTarget
  saved : Bool
  fs : FS
deriving Repr

/-- The interrupt-handler goroutine of main.go: on a signal it cancels the
context, drains every target still buffered in the task queue, and calls
SaveState only when at least one target remains AND a resume file is
configured (`len(remaining) > 0 && cfg.ResumeFile != ""`). -/
def interruptHandler (fs : FS) (cfg : Config) (queued : List ScanTarget)
    (now : Nat) : InterruptOutcome :=
  if queued.length > 0 ∧ cfg.resumeFile ≠ "" then
    { canceled := true, drained := queued, saved := true,
      fs := (SaveState fs queued now cfg.resumeFile).2 }
  else
    { canceled := true, drained := queued, saved := false, fs := fs }

/-! ## Result sink (internal/reporter, part of the repository as the
`reporter` package used by main.go) -/

/-- State of the CSV output: the rows sitting in the `csv.Writer`'s
in-memory buffer (written but not flushed) and the rows durably in the
file. -/
structure CSVState where
  buffer : List (List String)
  file : List (List String)
deriving DecidableEq, Repr

/-- csv.Writer.Write: appends a row to the in-memory buffer only. -/
def csvWrite (st : CSVState) (row : List String) : CSVState :=
  { st with buffer := st.buffer ++ [row] }

/-- csv.Writer.Flush: moves every buffered row into the file. -/
def csvFlush (st : CSVState) : CSVState :=
  { buffer := [], file := st.file ++ st.buffer }

/-- Reporter.Run's prologue: after opening the file it writes the header
row (no flush). -/
def reporterHeaderState : CSVState :=
  csvWrite { buffer := [], file := [] } CSVHeader

/-- Reporter.Run's loop body for one received result: a single
`writer.Write(result.ToCSVRow())` — and nothing else — before the next
receive. -/
def reporterAccept (fmtTime : Nat → String) (fmtLatencyMs : Int → String)
    (st : CSVState) (r : ScanResult) : CSVState :=
  csvWrite st (r.toCSVRow fmtTime fmtLatencyMs)

/-- The CSV state after Reporter.Run has accepted every result of the run
but before it returns: all writes done, no flush yet. -/
def reporterPreFlush (fmtTime : Nat → String) (fmtLatencyMs : Int → String)
    (results : List ScanResult) : CSVState :=
  results.foldl (reporterAccept fmtTime fmtLatencyMs) reporterHeaderState

/-- Reporter.Run over a whole (uncancelled) run: accept every result, then
return — the deferred `writer.Flush()` runs once, at return. -/
def reporterRun (fmtTime : Nat → String) (fmtLatencyMs : Int → String)
    (results : List ScanResult) : CSVState :=
  csvFlush (reporterPreFlush fmtTime fmtLatencyMs results)

/-! ## Concrete instances used to settle the claims -/

/-- A concrete target on a TEST-NET address. -/
def c1Target : ScanTarget := { ip := "192.0.2.1", port := 443 }

/-- A concrete worker body: the dry-run branch of the worker, so the probe
result is fully determined. -/
def c1Process (t : ScanTarget) : ScanResult :=
  (workerProcess true (fun u => { timestamp := 0, target := u }) 0 t).1

/-- Initial worker state: one buffered target, producer already done,
cancellation not yet signalled, nothing published. -/
def c1s0 : WorkerState :=
  { phase := .waiting, tasks := [c1Target], tasksClosed := true,
    canceled := false, published := [] }

/-- After dequeuing the target and completing the probe: at the publish
select. -/
def c1s1 : WorkerState :=
  { c1s0 with phase := .publishing (c1Process c1Target), tasks := [] }

/-- The interrupt arrives while the worker sits at the publish select. -/
def c1s2 : WorkerState := { c1s1 with canceled := true }

/-- The worker takes the ctx.Done branch of the publish select: it exits,
dropping the finished probe's result. -/
def c1s3 : WorkerState := { c1s2 with phase := .exited }

/-- The state reached when the publish select instead sends the result. -/
def c1pub : WorkerState :=
  { c1s1 with
    phase := .waiting
    published := c1s1.published ++ [c1Process c1Target] }

/-- A concrete configuration for the resume-degradation claim: a resume
file is configured AND address/port inputs are supplied. -/
def c4Config : Config :=
  { ipInput := "127.0.0.1", portInput := "80", workers := 1,
    timeout := 100000000, delay := 100000000, queueSize := 1024,
    dryRun := false, resumeFile := "checkpoint.json",
    outputFile := "results.csv", logFile := "portRunner.log",
    scanType := "connect", ping := true, minSourcePort := 10000,
    logLevel := "INFO" }

/-- A concrete configuration whose scan type is "syn". -/
def c6Config : Config := { c4Config with resumeFile := "", scanType := "syn" }

/-- A concrete configuration with no resume file configured. -/
def c2Config : Config := { c4Config with resumeFile := "" }

/-! ## Theorems -/

/-- C5: For every target, the Connect strategy's scan returns OPEN exactly
when the full TCP handshake succeeds (and then tears the connection down),
FILTERED exactly when the dial fails with a timeout-class error, and
CLOSED for any other connection failure; latency is measured from dial
start to dial completion or failure in all three cases. -/
theorem connect_scan_classification (s : ConnectScanner) (target : ScanTarget)
    (startTime : Nat) (dial : DialOutcome) (dur : Int) :
    ((s.Scan target startTime dial dur).1.status = StatusOpen ↔
        dial = .success) ∧
    ((s.Scan target startTime dial dur).2 = true ↔ dial = .success) ∧
    ((s.Scan target startTime dial dur).1.status = StatusFiltered ↔
        ∃ msg, dial = .failure true msg) ∧
    ((s.Scan target startTime dial dur).1.status = StatusClosed ↔
        ∃ msg, dial = .failure false msg) ∧
    (s.Scan target startTime dial dur).1.latency = dur ∧
    (s.Scan target startTime dial dur).1.timestamp = startTime := by
  rcases dial with _ | ⟨isT, msg⟩
  · simp [ConnectScanner.Scan, StatusOpen, StatusFiltered, StatusClosed]
  · cases isT <;>
      simp [ConnectScanner.Scan, StatusOpen, StatusFiltered, StatusClosed]

/-- C9: the dry-run branch of the worker performs no network I/O and, on
every one of any number of invocations on the same target, yields the same
result: status DRYRUN, no error, zero (hence non-negative) latency. -/
theorem dry_run_idempotent (scan : ScanTarget → ScanResult) (now : Nat)
    (target : ScanTarget) (n : Nat) (res : ScanResult × Bool)
    (h : res ∈ dryRunInvocations scan now target n) :
    res.1.status = StatusDryRun ∧ res.1.error = none ∧ res.1.latency = 0 ∧
    0 ≤ res.1.latency ∧ res.2 = false ∧
    res = ({ timestamp := now, target := target, status := StatusDryRun },
      false) := by
  have hres : res = workerProcess true scan now target := by
    rcases List.mem_map.mp h with ⟨k, _, hk⟩
    exact hk.symm
  subst hres
  simp [workerProcess]

/-- C9 witness: the theorem applied to two invocations of the dry-run
branch on a concrete target. -/
theorem dry_run_idempotent_witness :
    (({ timestamp := 3, target := c1Target, status := StatusDryRun },
        false) : ScanResult × Bool).1.status = StatusDryRun ∧
    (({ timestamp := 3, target := c1Target, status := StatusDryRun },
        false) : ScanResult × Bool).1.error = none ∧
    (({ timestamp := 3, target := c1Target, status := StatusDryRun },
        false) : ScanResult × Bool).1.latency = 0 ∧
    0 ≤ (({ timestamp := 3, target := c1Target, status := StatusDryRun },
        false) : ScanResult × Bool).1.latency ∧
    (({ timestamp := 3, target := c1Target, status := StatusDryRun },
        false) : ScanResult × Bool).2 = false ∧
    (({ timestamp := 3, target := c1Target, status := StatusDryRun },
        false) : ScanResult × Bool) =
      ({ timestamp := 3, target := c1Target, status := StatusDryRun },
        false) :=
  dry_run_idempotent (fun u => { timestamp := 9, target := u }) 3 c1Target 2
    ({ timestamp := 3, target := c1Target, status := StatusDryRun }, false)
    (by decide)

/-- C10: when the dry-run flag is set the reachability prefilter is never
invoked even if the ping option is enabled; the parsed host list is
expanded into targets unfiltered. -/
theorem dryrun_skips_prefilter (cfg : Config)
    (filter : List String → List String) (ips : List String)
    (ports : List Nat) (h : cfg.dryRun = true) :
    freshScanTargets cfg filter ips ports = (CreateTargets ips ports, false) := by
  simp [freshScanTargets, h]

/-- C10 witness: the theorem applied to a dry-run configuration with ping
enabled and a filter that would drop every host. -/
theorem dryrun_skips_prefilter_witness :
    freshScanTargets { c4Config with dryRun := true } (fun _ => [])
        ["127.0.0.1"] [80] =
      (CreateTargets ["127.0.0.1"] [80], false) :=
  dryrun_skips_prefilter { c4Config with dryRun := true } (fun _ => [])
    ["127.0.0.1"] [80] rfl

/-- C6 counterexample: with the probe-strategy selector set to "syn" the
factory in main.go binds the worker to the Connect strategy, not the raw
SYN strategy (the "syn" case falls through to the default arm). -/
theorem syn_selects_connect_cex :
    (selectEngine c6Config).isSyn = false ∧
    selectEngine c6Config = .connectScanner c6Config.timeout := by
  constructor <;> rfl

/-- C6 amended: strategy selection is a pure function of configuration
fixed at startup, but every selector value — "syn" included — binds the
workers to the Connect strategy; the privilege check still runs fast at
startup exactly when the selector is "syn", exiting before any worker
starts when the process lacks root on a non-Windows OS. -/
theorem strategy_selection_amended (cfg : Config) (goos : String)
    (euid : Nat) :
    selectEngine cfg = .connectScanner cfg.timeout ∧
    (startupPrivilegeExit cfg goos euid = true ↔
      (cfg.scanType = "syn" ∧ goos ≠ "windows" ∧ euid ≠ 0)) := by
  constructor
  · unfold selectEngine
    split <;> rfl
  · simp [startupPrivilegeExit, CheckPrivileges, and_assoc]

/-- C4: with a resume file configured but missing, and address/port inputs
supplied, main.go leaves the target list empty — it never falls back to
the parsed inputs, although its own log message announces "starting a new
scan" — and exits with code 1; the fresh-scan pipeline on the same inputs
would have produced a non-empty target list. -/
theorem resume_fallback_code_bug :
    resolveTargets c4Config
        (.err "open checkpoint.json: no such file or directory")
        (fun l => l) ["127.0.0.1"] [80] = .error 1 ∧
    (freshScanTargets c4Config (fun l => l) ["127.0.0.1"] [80]).1 =
      [{ ip := "127.0.0.1", port := 80 }] := by
  constructor <;> rfl

/-! Helper lemmas about the file-system model. -/

theorem fsLookup_write_self (fs : FS) (p : String) (c : CheckpointSnapshot) :
    fsLookup (fsWrite fs p c) p = some c := by
  unfold fsLookup fsWrite
  rw [List.find?_cons_of_pos _ (by simp)]
  rfl

theorem fsLookup_filter_ne (fs : FS) (a b : String) (h : ¬ b = a) :
    fsLookup (fs.filter (fun p => p.1 != a)) b = fsLookup fs b := by
  induction fs with
  | nil => rfl
  | cons hd tl ih =>
      by_cases h1 : hd.1 = a
      · have hb : (hd.1 == b) = false := by
          simp [h1]
          exact fun hc => h hc.symm
        simp only [List.filter_cons, h1, bne_self_eq_false, Bool.false_eq_true,
          if_false]
        unfold fsLookup
        rw [List.find?_cons_of_neg _ (by simp [hb])]
        exact ih
      · simp only [List.filter_cons, bne, h1, Bool.not_eq_true]
        by_cases h2 : hd.1 = b
        · have : (hd.1 == a) = false := by simp [h1]
          simp only [this, Bool.not_false, if_true]
          unfold fsLookup
          rw [List.find?_cons_of_pos _ (by simp [h2]),
            List.find?_cons_of_pos _ (by simp [h2])]
        · have ha : (hd.1 == a) = false := by simp [h1]
          simp only [ha, Bool.not_false, if_true]
          unfold fsLookup
          rw [List.find?_cons_of_neg _ (by simp [h2]),
            List.find?_cons_of_neg _ (by simp [h2])]
          exact ih

theorem tmp_path_ne (path : String) : ¬ path ++ ".tmp" = path := by
  intro hcontra
  have hlen := congrArg String.length hcontra
  rw [String.length_append] at hlen
  have h4 : (".tmp" : String).length = 4 := rfl
  omega

/-- After SaveState completes, the final path holds the complete snapshot:
loading it back yields exactly the saved target list. -/
theorem saveState_load (fs : FS) (q : List ScanTarget) (now : Nat)
    (path : String) :
    LoadState (SaveState fs q now path).2 path = .ok q := by
  unfold SaveState LoadState fsRename
  rw [fsLookup_write_self]
  rw [fsLookup_write_self]

/-- In the intermediate state of SaveState — temporary file written, rename
not yet performed — the final path still shows exactly what it showed
before the save: a partially complete checkpoint is never observable under
its final name. -/
theorem saveState_mid (fs : FS) (q : List ScanTarget) (now : Nat)
    (path : String) :
    fsLookup (SaveState fs q now path).1 path = fsLookup fs path := by
  unfold SaveState fsWrite
  simp only
  unfold fsLookup
  rw [List.find?_cons_of_neg _
    (by simp only [beq_iff_eq]; exact tmp_path_ne path)]
  exact fsLookup_filter_ne fs (path ++ ".tmp") path
    (fun hh => tmp_path_ne path hh.symm)

/-- C3 counterexample: a checkpoint file that loads successfully is NOT
deleted afterwards by main.go — the resume branch has no `os.Remove`, so
the very same file would be consumed again by a second resume. -/
theorem checkpoint_file_kept_cex :
    (mainHandleResume
        [("checkpoint.json",
          { remaining := [{ ip := "10.0.0.1", port := 22 }], version := "1",
            time := 5 })] "checkpoint.json").1 =
      [{ ip := "10.0.0.1", port := 22 }] ∧
    fsLookup (mainHandleResume
        [("checkpoint.json",
          { remaining := [{ ip := "10.0.0.1", port := 22 }], version := "1",
            time := 5 })] "checkpoint.json").2 "checkpoint.json" =
      some { remaining := [{ ip := "10.0.0.1", port := 22 }], version := "1",
             time := 5 } := by
  constructor <;> rfl

/-- C3 amended: the checkpoint round-trip holds — a snapshot saved with
targets T loads back as exactly T — but the on-disk file is never removed
by the resume path of main.go (the file system is returned unchanged both
on success and on failure), so nothing prevents it from being consumed
twice. -/
theorem checkpoint_roundtrip_amended (fs fs2 : FS) (T : List ScanTarget)
    (now : Nat) (path p : String) :
    LoadState (SaveState fs T now path).2 path = .ok T ∧
    (mainHandleResume fs2 p).2 = fs2 := by
  refine ⟨saveState_load fs T now path, ?_⟩
  unfold mainHandleResume
  cases LoadState fs2 p <;> rfl

/-- C2 counterexample: an interrupted run with targets still queued but no
resume file configured writes no checkpoint at all — the claim's "for
every interrupted run, regardless of other configuration" fails. -/
theorem interrupt_checkpoint_cex :
    (interruptHandler [] c2Config [{ ip := "10.0.0.1", port := 22 }] 7).saved
        = false ∧
    (interruptHandler [] c2Config [{ ip := "10.0.0.1", port := 22 }] 7).fs
        = [] := by
  constructor <;> rfl

/-- C2 amended: on interrupt, target production stops at the cancellation
point and the Task Queue is closed (by the producer's deferred close); the
interrupt handler cancels the shared context and drains every queued
target; the drained snapshot is serialized to a temporary path and
atomically renamed into place — but only when a resume file is configured
and at least one target remains in the queue; otherwise no checkpoint is
written. -/
theorem interrupt_checkpoint_amended (fs : FS) (cfg : Config)
    (targets queued : List ScanTarget) (now k : Nat) :
    (feedTargets targets k).1 = targets.take k ∧
    (feedTargets targets k).2 = true ∧
    (interruptHandler fs cfg queued now).canceled = true ∧
    (interruptHandler fs cfg queued now).drained = queued ∧
    ((interruptHandler fs cfg queued now).saved = true ↔
      (queued.length > 0 ∧ cfg.resumeFile ≠ "")) ∧
    (queued.length > 0 → cfg.resumeFile ≠ "" →
      LoadState (interruptHandler fs cfg queued now).fs cfg.resumeFile
          = .ok queued ∧
      fsLookup (SaveState fs queued now cfg.resumeFile).1 cfg.resumeFile
          = fsLookup fs cfg.resumeFile) := by
  unfold interruptHandler
  by_cases hc : queued.length > 0 ∧ cfg.resumeFile ≠ ""
  · rw [if_pos hc]
    exact ⟨rfl, rfl, rfl, rfl, by simp [hc], fun _ _ =>
      ⟨saveState_load fs queued now cfg.resumeFile,
        saveState_mid fs queued now cfg.resumeFile⟩⟩
  · rw [if_neg hc]
    exact ⟨rfl, rfl, rfl, rfl, by simp [hc], fun h1 h2 => absurd ⟨h1, h2⟩ hc⟩

/-- C2 witness: the theorem applied to an interrupted run with one queued
target and a configured resume file, both save conditions discharged. -/
theorem interrupt_checkpoint_witness :
    (feedTargets [{ ip := "10.0.0.1", port := 22 }] 0).1
        = [{ ip := "10.0.0.1", port := 22 }].take 0 ∧
    (feedTargets [{ ip := "10.0.0.1", port := 22 }] 0).2 = true ∧
    (interruptHandler [] c4Config [{ ip := "10.0.0.1", port := 22 }] 7).canceled
        = true ∧
    (interruptHandler [] c4Config [{ ip := "10.0.0.1", port := 22 }] 7).drained
        = [{ ip := "10.0.0.1", port := 22 }] ∧
    ((interruptHandler [] c4Config [{ ip := "10.0.0.1", port := 22 }] 7).saved
          = true ↔
      (([{ ip := "10.0.0.1", port := 22 }] : List ScanTarget).length > 0 ∧
        c4Config.resumeFile ≠ "")) ∧
    (([{ ip := "10.0.0.1", port := 22 }] : List ScanTarget).length > 0 →
      c4Config.resumeFile ≠ "" →
      LoadState
          (interruptHandler [] c4Config [{ ip := "10.0.0.1", port := 22 }] 7).fs
          c4Config.resumeFile
        = .ok [{ ip := "10.0.0.1", port := 22 }] ∧
      fsLookup
          (SaveState [] [{ ip := "10.0.0.1", port := 22 }] 7
            c4Config.resumeFile).1 c4Config.resumeFile
        = fsLookup [] c4Config.resumeFile) :=
  interrupt_checkpoint_amended [] c4Config [{ ip := "10.0.0.1", port := 22 }]
    [{ ip := "10.0.0.1", port := 22 }] 7 0

/-- C7 counterexample: right after the Reporter has accepted two results —
a reachable point of Reporter.Run — the header and both records sit in the
csv.Writer's buffer and nothing has reached the file: the
written-but-unflushed window holds two records, not at most one. -/
theorem reporter_buffer_cex :
    (reporterPreFlush (fun _ => "1970-01-01T00:00:00Z") (fun _ => "0.00")
        [{ timestamp := 0, target := { ip := "10.0.0.1", port := 22 },
           status := "OPEN" },
         { timestamp := 0, target := { ip := "10.0.0.1", port := 80 },
           status := "CLOSED" }]).buffer.length = 3 ∧
    (reporterPreFlush (fun _ => "1970-01-01T00:00:00Z") (fun _ => "0.00")
        [{ timestamp := 0, target := { ip := "10.0.0.1", port := 22 },
           status := "OPEN" },
         { timestamp := 0, target := { ip := "10.0.0.1", port := 80 },
           status := "CLOSED" }]).file = [] := by
  constructor <;> rfl

/-- Every fold of reporterAccept only appends rows to the buffer. -/
theorem reporterAccept_foldl (fmtTime : Nat → String)
    (fmtLatencyMs : Int → String) (results : List ScanResult)
    (st : CSVState) :
    results.foldl (reporterAccept fmtTime fmtLatencyMs) st =
      { buffer :=
          st.buffer ++ results.map (fun r => r.toCSVRow fmtTime fmtLatencyMs)
        file := st.file } := by
  induction results generalizing st with
  | nil => simp
  | cons r rs ih =>
      rw [List.foldl_cons, ih]
      simp [reporterAccept, csvWrite]

/-- C7 amended: the Reporter writes each received record to the csv.Writer
once per result but never flushes between records; every record reaches
the file in arrival order only through the single deferred flush when Run
returns, so mid-run the written-but-unflushed window grows with the number
of accepted records instead of staying at one. -/
theorem reporter_flush_amended (fmtTime : Nat → String)
    (fmtLatencyMs : Int → String) (results : List ScanResult) :
    reporterRun fmtTime fmtLatencyMs results =
      { buffer := []
        file := CSVHeader ::
          results.map (fun r => r.toCSVRow fmtTime fmtLatencyMs) } ∧
    (reporterPreFlush fmtTime fmtLatencyMs results).buffer =
      CSVHeader :: results.map (fun r => r.toCSVRow fmtTime fmtLatencyMs) ∧
    (reporterPreFlush fmtTime fmtLatencyMs results).file = [] := by
  have hpre := reporterAccept_foldl fmtTime fmtLatencyMs results
    reporterHeaderState
  refine ⟨?_, ?_, ?_⟩
  · unfold reporterRun reporterPreFlush
    rw [hpre]
    simp [csvFlush, reporterHeaderState, csvWrite]
  · unfold reporterPreFlush
    rw [hpre]
    simp [reporterHeaderState, csvWrite]
  · unfold reporterPreFlush
    rw [hpre]
    simp [reporterHeaderState, csvWrite]

/-- C8 counterexample: the header row differs from the spec's declared
field names (dst_ip/dst_port versus address/port), and a record whose
status is ERROR with a non-nil error serializes its status field as
"ERROR: " followed by the message — a value outside
\x7bOPEN,CLOSED,FILTERED,ERROR,DRYRUN\x7d. -/
theorem csv_schema_cex :
    CSVHeader ≠ specSchemaFieldNames ∧
    (({ timestamp := 0, target := { ip := "10.0.0.1", port := 22 },
        status := StatusError, latency := 0,
        error := some "boom" } : ScanResult).toCSVRow
          (fun _ => "1970-01-01T00:00:00Z") (fun _ => "0.00"))[3]?
      = some "ERROR: boom" ∧
    ¬ ("ERROR: boom" ∈ allowedStatuses) := by
  refine ⟨by decide, rfl, by decide⟩

/-- C8 amended: the header row is the literal strings timestamp, dst_ip,
dst_port, status, latency_ms; a record whose status is one of the five
schema values serializes that status verbatim — except that a status of
ERROR with a non-nil error is serialized as "ERROR: " followed by the
message, leaving the schema's value set. -/
theorem csv_schema_amended (r : ScanResult) (fmtTime : Nat → String)
    (fmtLatencyMs : Int → String) (hmem : r.status ∈ allowedStatuses) :
    CSVHeader = ["timestamp", "dst_ip", "dst_port", "status", "latency_ms"] ∧
    (r.toCSVRow fmtTime fmtLatencyMs).length = 5 ∧
    ((r.status = StatusError ∧ r.error ≠ none) ∨
      ((r.toCSVRow fmtTime fmtLatencyMs)[3]? = some r.status ∧
        r.status ∈ allowedStatuses)) := by
  refine ⟨rfl, rfl, ?_⟩
  by_cases herr : r.status = StatusError ∧ r.error ≠ none
  · exact Or.inl herr
  · refine Or.inr ⟨?_, hmem⟩
    simp [ScanResult.toCSVRow, if_neg herr]

/-- A concrete OPEN record used to witness the amended schema claim. -/
def c8Result : ScanResult :=
  { timestamp := 0, target := { ip := "10.0.0.1", port := 22 },
    status := StatusOpen, latency := 1 }

/-- A concrete stand-in for the RFC3339 time formatter. -/
def c8FmtT : Nat → String := fun _ => "1970-01-01T00:00:00Z"

/-- A concrete stand-in for the latency formatter. -/
def c8FmtL : Int → String := fun _ => "0.00"

/-- C8 witness: the theorem applied to a concrete OPEN record. -/
theorem csv_schema_witness :
    CSVHeader = ["timestamp", "dst_ip", "dst_port", "status", "latency_ms"] ∧
    (c8Result.toCSVRow c8FmtT c8FmtL).length = 5 ∧
    ((c8Result.status = StatusError ∧ c8Result.error ≠ none) ∨
      ((c8Result.toCSVRow c8FmtT c8FmtL)[3]? = some c8Result.status ∧
        c8Result.status ∈ allowedStatuses)) :=
  csv_schema_amended c8Result c8FmtT c8FmtL (by decide)

/-- C1 counterexample: a complete run of the worker step relation in which
the worker dequeues its target, finishes the probe, and then — because
cancellation arrives while it sits at the publish select — exits WITHOUT
publishing the finished result to the Results Queue: the claim's
"publishes the resulting ProbeResult ... before exiting" does not hold of
every run. -/
theorem worker_midprobe_drop_cex :
    Relation.ReflTransGen (WStep c1Process) c1s0 c1s3 ∧
    c1s0.canceled = false ∧ c1s0.published = [] ∧
    c1s0.tasks = [c1Target] ∧
    c1s3.phase = .exited ∧ c1s3.published = [] := by
  refine ⟨?_, rfl, rfl, rfl, rfl, rfl⟩
  have h1 : WStep c1Process c1s0 c1s1 :=
    WStep.recvTask c1s0 c1Target [] rfl rfl
  have h2 : WStep c1Process c1s1 c1s2 :=
    WStep.cancelArrives c1s1 rfl
  have h3 : WStep c1Process c1s2 c1s3 :=
    WStep.ctxDonePublishing c1s2 (c1Process c1Target) rfl rfl
  exact Relation.ReflTransGen.head h1
    (Relation.ReflTransGen.head h2 (Relation.ReflTransGen.single h3))

/-- C1 amended: in every step of the worker, a worker that has dequeued a
target always completes that probe and reaches the publish select; from
there it either publishes the finished result and continues, or — when
cancellation has been observed — exits dropping that one result, or the
cancellation signal itself arrives leaving the worker in place.  A worker
that exits from the waiting select (queue closed or cancellation) performs
no further probe and publishes nothing new. -/
theorem worker_midprobe_publish_amended (process : ScanTarget → ScanResult)
    (s s2 : WorkerState) (r : ScanResult) (hstep : WStep process s s2) :
    (s.phase = .publishing r →
      (s2.phase = .waiting ∧ s2.published = s.published ++ [r]) ∨
      (s.canceled = true ∧ s2.phase = .exited ∧
        s2.published = s.published) ∨
      (s2.phase = s.phase ∧ s2.published = s.published ∧
        s2.canceled = true ∧ s.canceled = false)) ∧
    (s.phase = .waiting → s2.phase = .exited →
      s2.published = s.published) := by
  cases hstep with
  | recvTask t rest hphase htasks =>
      constructor
      · intro hpub
        rw [hphase] at hpub
        exact absurd hpub (by simp)
      · intro _ hex
        exact absurd hex (by simp)
  | recvClosed hphase htasks hclosed =>
      exact ⟨fun hpub => absurd (hphase.symm.trans hpub) (by simp),
        fun _ _ => rfl⟩
  | ctxDoneWaiting hphase hcanc =>
      exact ⟨fun hpub => absurd (hphase.symm.trans hpub) (by simp),
        fun _ _ => rfl⟩
  | publish r0 hphase =>
      constructor
      · intro hpub
        have hr : r0 = r :=
          (WorkerPhase.publishing.injEq r0 r).mp (hphase.symm.trans hpub)
        subst hr
        exact Or.inl ⟨rfl, rfl⟩
      · intro hw _
        exact absurd (hw.symm.trans hphase) (by simp)
  | ctxDonePublishing r0 hphase hcanc =>
      constructor
      · intro _
        exact Or.inr (Or.inl ⟨hcanc, rfl, rfl⟩)
      · intro hw _
        exact absurd (hw.symm.trans hphase) (by simp)
  | cancelArrives hnc =>
      constructor
      · intro _
        exact Or.inr (Or.inr ⟨rfl, rfl, rfl, hnc⟩)
      · intro hw hex
        rw [hw] at hex

/-- C1 witness: the amended theorem applied to the concrete publish step
out of the mid-probe state c1s1. -/
theorem worker_midprobe_publish_witness :
    (c1s1.phase = .publishing (c1Process c1Target) →
      (c1pub.phase = .waiting ∧
        c1pub.published = c1s1.published ++ [c1Process c1Target]) ∨
      (c1s1.canceled = true ∧ c1pub.phase = .exited ∧
        c1pub.published = c1s1.published) ∨
      (c1pub.phase = c1s1.phase ∧ c1pub.published = c1s1.published ∧
        c1pub.canceled = true ∧ c1s1.canceled = false)) ∧
    (c1s1.phase = .waiting → c1pub.phase = .exited →
      c1pub.published = c1s1.published) :=
  worker_midprobe_publish_amended c1Process c1s1 c1pub
    (c1Process c1Target)
    (WStep.publish c1s1 (c1Process c1Target) rfl)

end Goscant
